import Mathlib

/-!
Shallow embedding of the blog backend's data/query layer
(src/models.py, src/crud.py, src/routes.py, src/dependencies.py,
src/app/storage.py), together with proofs of the spec's claims.

Conventions of the embedding:
* machine timestamps (datetime.utcnow) are explicit `Nat` parameters
  threaded into each operation, one value per wall-clock second for
  the strftime("%Y%m%d%H%M%S") stamp;
* a pydantic payload produced by model_dump(exclude_unset=True) is a
  record whose every field is `Option (Option _)`: `none` means the
  key is absent from the dict, `some none` means the key is present
  with value None (JSON null), `some (some v)` means present with a
  real value.  The update loops in crud.py run
  "for field, value in data.items(): if value is not None: setattr",
  so both `none` and `some none` leave the column untouched;
* database tables are association lists / row lists; uniqueness
  constraints appear as explicit scans at the write boundary, which
  is exactly how the IntegrityError translation in crud.create_user
  observes them;
* the declared ON DELETE CASCADE edges of models.py (posts.author_id,
  comments.post_id / user_id / parent_id, favorites.*, subscriptions.*,
  post_categories.post_id) are embedded as the cascade filter in
  `delete_user`.
-/

namespace Blog

abbrev Timestamp := Nat

/-- Reading a field out of a model_dump dict inside the
"if value is not None: setattr" loop: a present non-null value
replaces the stored one, an absent key or a null value keeps it. -/
def dictGet {α : Type} (stored : α) : Option (Option α) → α
  | some (some v) => v
  | _ => stored

/-- Same read for a nullable column (stored value is an Option):
a null payload value is skipped by the loop, so the column can
never be reset to NULL through the update path. -/
def dictGetOpt {α : Type} (stored : Option α) : Option (Option α) → Option α
  | some (some v) => some v
  | _ => stored

/-- Python truthiness of the popped category_ids value in
create_post/update_post: `if category_ids:` is False for a missing
key, a None value and an empty list. -/
def truthyIds : Option (Option (List Nat)) → Option (List Nat)
  | some (some l) => if l = [] then none else some l
  | _ => none

/-! ### slugify and the timestamp suffix (crud.create_post) -/

/-- The maximal alphanumeric runs of a character list, lowercased;
`cur` accumulates the current run in reverse.  This is the word
decomposition python-slugify performs on ASCII input. -/
def slugWordsAux (cur : List Char) : List Char → List (List Char)
  | [] => if cur.isEmpty then [] else [cur.reverse]
  | c :: cs =>
      if c.isAlphanum then slugWordsAux (c.toLower :: cur) cs
      else if cur.isEmpty then slugWordsAux [] cs
      else cur.reverse :: slugWordsAux [] cs

/-- ASCII python-slugify: lowercase, split on non-alphanumeric runs,
join the nonempty words with hyphens. -/
def slugify (s : String) : String :=
  String.intercalate "-" ((slugWordsAux [] s.data).map String.mk)

/-- Decimal digit character. -/
def digitChar (n : Nat) : Char :=
  Char.ofNat (48 + n)

/-- Fuel-driven most-significant-first decimal digits (fuel keeps the
recursion structural; natDigits supplies enough of it). -/
def natDigitsAux : Nat → Nat → List Char
  | 0, _ => []
  | fuel + 1, n =>
      if n < 10 then [digitChar n]
      else natDigitsAux fuel (n / 10) ++ [digitChar (n % 10)]

/-- Decimal digit characters of a natural number, most significant
first (the body of strftime's zero-padded decimal fields). -/
def natDigits (n : Nat) : List Char :=
  natDigitsAux (n + 1) n

/-- strftime("%Y%m%d%H%M%S"): a 14-character decimal stamp that is a
function of the current UTC second only.  We model the second counter
as a Nat and the stamp as its zero-padded 14-digit rendering. -/
def fmtTimestamp (t : Timestamp) : String :=
  String.mk (List.replicate (14 - (natDigits t).length) '0' ++ natDigits t)

/-- Reading a decimal character list back as a number; the left fold
ignores leading zero padding, so it inverts fmtTimestamp. -/
def parseDigits (l : List Char) : Nat :=
  l.foldl (fun acc c => 10 * acc + (c.toNat - 48)) 0

/-- The slug assigned by create_post:
slugify(title) + "-" + utcnow().strftime("%Y%m%d%H%M%S"). -/
def makeSlug (title : String) (now : Timestamp) : String :=
  slugify title ++ "-" ++ fmtTimestamp now

/-! ### rows (models.py ORM classes) -/

/-- users table row (models.User). -/
structure User where
  id : Nat
  email : String
  login : String
  password_hash : String
  full_name : Option String := none
  bio : Option String := none
  avatar_url : Option String := none
  is_active : Bool := true
  is_admin : Bool := false
  created_at : Timestamp := 0
  updated_at : Timestamp := 0
  deriving DecidableEq, Repr

/-- posts table row (models.Post); categories holds the ids reached
through the post_categories relationship, as the ORM object does. -/
structure Post where
  id : Nat
  author_id : Nat
  title : String
  slug : String
  content : String
  summary : Option String := none
  is_published : Bool := true
  published_at : Option Timestamp := none
  view_count : Nat := 0
  categories : List Nat := []
  created_at : Timestamp := 0
  updated_at : Timestamp := 0
  deriving DecidableEq, Repr

/-- comments table row (models.Comment). -/
structure Comment where
  id : Nat
  post_id : Nat
  user_id : Nat
  content : String
  parent_id : Option Nat := none
  is_edited : Bool := false
  created_at : Timestamp := 0
  updated_at : Timestamp := 0
  deriving DecidableEq, Repr

/-! ### payloads (pydantic schemas in models.py, as the crud layer sees
the dicts produced by model_dump) -/

/-- PostCreate.model_dump() plus the author_id the route injects:
every key is present, summary and category_ids may be null. -/
structure PostCreate where
  author_id : Nat
  title : String
  content : String
  summary : Option String := none
  is_published : Bool := true
  category_ids : Option (List Nat) := none
  deriving DecidableEq, Repr

/-- PostUpdate.model_dump(exclude_unset=True): each field absent,
null, or carrying a value. -/
structure PostUpdate where
  title : Option (Option String) := none
  content : Option (Option String) := none
  summary : Option (Option String) := none
  is_published : Option (Option Bool) := none
  category_ids : Option (Option (List Nat)) := none
  deriving DecidableEq, Repr

/-- UserCreate.model_dump(): registration payload. -/
structure UserCreate where
  email : String
  login : String
  password : String
  full_name : Option String := none
  bio : Option String := none
  avatar_url : Option String := none
  deriving DecidableEq, Repr

/-- UserUpdate.model_dump(exclude_unset=True). -/
structure UserUpdate where
  email : Option (Option String) := none
  login : Option (Option String) := none
  full_name : Option (Option String) := none
  bio : Option (Option String) := none
  avatar_url : Option (Option String) := none
  password : Option (Option String) := none
  deriving DecidableEq, Repr

/-- Modelled from the spec: auth.get_password_hash is not under src/
(src/crud.py imports it from the missing module auth.py); the spec
says only that the credential is "stored as a derived hash, never
raw", so we embed it as an explicit tagging function. -/
def get_password_hash (password : String) : String :=
  "bcrypt$" ++ password

/-! ### post commands (crud.py create_post / update_post) -/

/-- crud.create_post.  `cats` is the categories table (its ids), from
which "db.query(Category).filter(Category.id.in_(category_ids))"
selects; `newId` is the id the database assigns on insert; `now` is
datetime.utcnow() at second granularity. -/
def create_post (cats : List Nat) (now : Timestamp) (newId : Nat)
    (d : PostCreate) : Post :=
  { id := newId
    author_id := d.author_id
    title := d.title
    slug := makeSlug d.title now
    content := d.content
    summary := d.summary
    is_published := d.is_published
    published_at := if d.is_published then some now else none
    view_count := 0
    categories :=
      match truthyIds (some d.category_ids) with
      | some ids => cats.filter (fun c => c ∈ ids)
      | none => []
    created_at := now
    updated_at := now }

/-- crud.update_post applied to a found post: pop category_ids, run
the "if value is not None: setattr" loop over the remaining payload
fields, replace the category set when the popped list is truthy,
stamp updated_at, and stamp published_at when the payload publishes
the post while published_at is still unset. -/
def update_post (cats : List Nat) (now : Timestamp) (p : Post)
    (d : PostUpdate) : Post :=
  let p1 : Post :=
    { p with
      title := dictGet p.title d.title
      content := dictGet p.content d.content
      summary := dictGetOpt p.summary d.summary
      is_published := dictGet p.is_published d.is_published }
  let p2 : Post :=
    match truthyIds d.category_ids with
    | some ids => { p1 with categories := cats.filter (fun c => c ∈ ids) }
    | none => p1
  let p3 : Post := { p2 with updated_at := now }
  if d.is_published = some (some true) ∧ p3.published_at = none then
    { p3 with published_at := some now }
  else p3

/-! ### user commands (crud.py create_user / update_user and the
storage write boundary) -/

/-- Which unique constraint an IntegrityError names. -/
inductive DBConstraint where
  | email
  | login
  deriving DecidableEq, Repr

/-- The outcomes of create_user's except-block: the two ValueError
texts it can raise, or the re-raised IntegrityError of the final
bare raise. -/
inductive UserConflict where
  | emailRegistered
  | loginTaken
  | storage (c : DBConstraint)
  deriving DecidableEq, Repr

/-- Does pat occur at the start of l. -/
def leadsWith : List Char → List Char → Bool
  | [], _ => true
  | _ :: _, [] => false
  | a :: as, b :: bs => a == b && leadsWith as bs

/-- Does pat occur anywhere in l. -/
def containsChars (pat : List Char) : List Char → Bool
  | [] => leadsWith pat []
  | c :: rest => leadsWith pat (c :: rest) || containsChars pat rest

/-- The Python substring test `pat in s`. -/
def strContains (s pat : String) : Bool :=
  containsChars pat.data s.data

/-- The statement echo SQLAlchemy appends to str(e) for an
IntegrityError raised while committing an INSERT INTO users: it spells
out the full column list of the users table, so it always contains
the substring email (and login) whichever constraint fired. -/
def usersInsertEcho : String :=
  "[SQL: INSERT INTO users (email, login, password_hash, full_name," ++
  " bio, avatar_url, is_active, is_admin) VALUES" ++
  " (?, ?, ?, ?, ?, ?, ?, ?)]"

/-- str(e) of the IntegrityError create_user catches: the engine's
message naming the violated unique column, followed by the echoed
statement. -/
def integrityMessage : DBConstraint → String
  | .email =>
      "(sqlite3.IntegrityError) UNIQUE constraint failed: users.email "
        ++ usersInsertEcho
  | .login =>
      "(sqlite3.IntegrityError) UNIQUE constraint failed: users.login "
        ++ usersInsertEcho

/-- The storage engine's commit for an INSERT INTO users: the unique
indexes on email and login are the final arbiter, and the raised
IntegrityError names the violated column. -/
def insert_user (tbl : List User) (u : User) :
    Except DBConstraint (List User) :=
  if tbl.any (fun v => v.email == u.email) then .error .email
  else if tbl.any (fun v => v.login == u.login) then .error .login
  else .ok (tbl ++ [u])

/-- The users-table row create_user builds from the payload. -/
def mkUserRow (now : Timestamp) (newId : Nat) (d : UserCreate) : User :=
  { id := newId
    email := d.email
    login := d.login
    password_hash := get_password_hash d.password
    full_name := d.full_name
    bio := d.bio
    avatar_url := d.avatar_url
    created_at := now
    updated_at := now }

/-- crud.create_user: hash the password, insert, and on IntegrityError
roll back and classify by substring tests on str(e) - first
`if "email" in str(e)`, then `elif "login" in str(e)`, else re-raise.
Because str(e) carries the echoed INSERT column list, the email test
matches for every users-insert IntegrityError.  Returns the table
after the call together with the domain result. -/
def create_user (tbl : List User) (now : Timestamp) (newId : Nat)
    (d : UserCreate) : List User × Except UserConflict User :=
  match insert_user tbl (mkUserRow now newId d) with
  | .error c =>
      if strContains (integrityMessage c) "email" then
        (tbl, .error .emailRegistered)
      else if strContains (integrityMessage c) "login" then
        (tbl, .error .loginTaken)
      else (tbl, .error (.storage c))
  | .ok tbl2 => (tbl2, .ok (mkUserRow now newId d))

/-- crud.update_user applied to a found user: hash a truthy password
into password_hash, run the "if value is not None" loop, stamp
updated_at. -/
def update_user (now : Timestamp) (u : User) (d : UserUpdate) : User :=
  { u with
    email := dictGet u.email d.email
    login := dictGet u.login d.login
    full_name := dictGetOpt u.full_name d.full_name
    bio := dictGetOpt u.bio d.bio
    avatar_url := dictGetOpt u.avatar_url d.avatar_url
    password_hash :=
      match d.password with
      | some (some pw) => if pw = "" then u.password_hash
                          else get_password_hash pw
      | _ => u.password_hash
    updated_at := now }

/-! ### favorites and follows (crud.py, association tables) -/

/-- One row of the favorites table: (user_id, post_id).  The
subscriptions table reuses the same shape as (follower_id,
following_id). -/
abbrev PairRow := Nat × Nat

/-- The SELECT ... WHERE user_id = u AND post_id = p existence probe
used by add_favorite / is_favorited (and, with the other column
names, by follow_user / is_following). -/
def pairExists (rows : List PairRow) (a b : Nat) : Bool :=
  rows.any (fun r => r.1 == a && r.2 == b)

/-- Number of rows matching the pair, for duplicate-freedom
statements. -/
def pairCount (rows : List PairRow) (a b : Nat) : Nat :=
  (rows.filter (fun r => r.1 == a && r.2 == b)).length

/-- crud.add_favorite: probe first, report False on an existing row,
otherwise insert and report True. -/
def add_favorite (favs : List PairRow) (user_id post_id : Nat) :
    List PairRow × Bool :=
  if pairExists favs user_id post_id then (favs, false)
  else (favs ++ [(user_id, post_id)], true)

/-- crud.remove_favorite: DELETE WHERE the pair matches, report
rowcount > 0. -/
def remove_favorite (favs : List PairRow) (user_id post_id : Nat) :
    List PairRow × Bool :=
  (favs.filter (fun r => !(r.1 == user_id && r.2 == post_id)),
   pairExists favs user_id post_id)

/-- crud.follow_user: one probe, then "if existing or follower_id ==
following_id: return False", else insert and return True. -/
def follow_user (subs : List PairRow) (follower_id following_id : Nat) :
    List PairRow × Bool :=
  if pairExists subs follower_id following_id ∨ follower_id = following_id
  then (subs, false)
  else (subs ++ [(follower_id, following_id)], true)

/-- crud.unfollow_user: DELETE WHERE the pair matches, report
rowcount > 0. -/
def unfollow_user (subs : List PairRow) (follower_id following_id : Nat) :
    List PairRow × Bool :=
  (subs.filter (fun r => !(r.1 == follower_id && r.2 == following_id)),
   pairExists subs follower_id following_id)

/-- The distinct outcomes of POST /users/{user_id}/follow in
routes.py: 404 "User not found", 400 "Cannot follow yourself",
400 "Already following this user", or 201 success. -/
inductive FollowOutcome where
  | ok
  | userNotFound
  | cannotFollowSelf
  | alreadyFollowing
  deriving DecidableEq, Repr

/-- routes.follow_user: existence check, self check, then
crud.follow_user whose False return maps to "Already following". -/
def follow_route (users : List User) (subs : List PairRow)
    (currentId targetId : Nat) : List PairRow × FollowOutcome :=
  if !(users.any (fun u => u.id == targetId)) then (subs, .userNotFound)
  else if targetId = currentId then (subs, .cannotFollowSelf)
  else
    match follow_user subs currentId targetId with
    | (subs2, true) => (subs2, .ok)
    | (subs2, false) => (subs2, .alreadyFollowing)

/-! ### listing and pagination (dependencies.get_pagination_params,
crud.get_posts) -/

/-- dependencies.get_pagination_params: skip = (page - 1) * page_size,
limit = page_size (page is 1-indexed). -/
def get_pagination_params (page page_size : Nat) : Nat × Nat :=
  ((page - 1) * page_size, page_size)

/-- Insert into a list kept in descending created_at order (stable:
existing rows with the same key stay in front). -/
def insertDesc (p : Post) : List Post → List Post
  | [] => [p]
  | q :: qs =>
      if q.created_at < p.created_at then p :: q :: qs
      else q :: insertDesc p qs

/-- ORDER BY created_at DESC, the default ordering of
crud.get_posts. -/
def sortByCreatedDesc : List Post → List Post
  | [] => []
  | p :: ps => insertDesc p (sortByCreatedDesc ps)

/-- OFFSET skip LIMIT limit. -/
def paginate {α : Type} (l : List α) (skip limit : Nat) : List α :=
  (l.drop skip).take limit

/-- crud.get_posts with the default filters (is_published=True, no
author/category/search filter, order_by=created_at desc): filter the
published posts, order newest first, then offset/limit. -/
def get_posts (posts : List Post) (skip limit : Nat) : List Post :=
  paginate (sortByCreatedDesc (posts.filter (fun p => p.is_published)))
    skip limit

/-! ### the relational state and the user-delete cascade
(models.py ON DELETE CASCADE edges, crud.delete_user) -/

/-- The tables the user-delete claims range over; categories is the
list of category ids. -/
structure DBState where
  users : List User
  posts : List Post
  comments : List Comment
  favorites : List PairRow
  subscriptions : List PairRow
  post_categories : List PairRow
  categories : List Nat
  deriving DecidableEq, Repr

def userAlive (users : List User) (uid : Nat) : Bool :=
  users.any (fun u => u.id == uid)

def postAlive (posts : List Post) (pid : Nat) : Bool :=
  posts.any (fun p => p.id == pid)

/-- A comment row keeps its place after the cascade when its author
and its post survive and its parent (if any) has already survived.
`kept` is the list of comments already processed and kept; rows are
processed in insertion order, so a reply is seen after its parent. -/
def commentKept (users : List User) (posts : List Post)
    (kept : List Comment) (c : Comment) : Bool :=
  userAlive users c.user_id && postAlive posts c.post_id &&
    (match c.parent_id with
     | none => true
     | some pid => kept.any (fun k => k.id == pid))

/-- The comments surviving the cascade: the declared ON DELETE
CASCADE edges on comments.user_id, comments.post_id and
comments.parent_id, evaluated transitively in row order. -/
def cascadeComments (users : List User) (posts : List Post)
    (cs : List Comment) : List Comment :=
  cs.foldl
    (fun acc c => if commentKept users posts acc c then acc ++ [c] else acc)
    []

/-- crud.delete_user plus the schema's declared cascades: drop the
user row, the posts it authored, every comment whose author or post
or (transitively) parent is gone, and every favorites /
subscriptions / post_categories row whose endpoints are gone.
Returns False without touching the state when the user id is
unknown. -/
def delete_user (st : DBState) (uid : Nat) : DBState × Bool :=
  if userAlive st.users uid then
    let users2 := st.users.filter (fun u => !(u.id == uid))
    let posts2 := st.posts.filter (fun p => !(p.author_id == uid))
    { users := users2
      posts := posts2
      comments := cascadeComments users2 posts2 st.comments
      favorites := st.favorites.filter
        (fun r => userAlive users2 r.1 && postAlive posts2 r.2)
      subscriptions := st.subscriptions.filter
        (fun r => userAlive users2 r.1 && userAlive users2 r.2)
      post_categories := st.post_categories.filter
        (fun r => postAlive posts2 r.1)
      categories := st.categories } |> (·, true)
  else (st, false)

/-- crud.get_post: first row whose id matches (None when absent). -/
def get_post (st : DBState) (pid : Nat) : Option Post :=
  st.posts.find? (fun p => p.id == pid)

/-- crud.get_comment: first row whose id matches. -/
def get_comment (st : DBState) (cid : Nat) : Option Comment :=
  st.comments.find? (fun c => c.id == cid)

/-- No orphan rows: every foreign key in the state resolves to a live
row (the referential integrity the schema's constraints maintain). -/
def noOrphans (st : DBState) : Prop :=
  (∀ p ∈ st.posts, userAlive st.users p.author_id = true) ∧
  (∀ c ∈ st.comments,
      userAlive st.users c.user_id = true ∧
      postAlive st.posts c.post_id = true ∧
      c.parent_id.all (fun pid => st.comments.any (fun k => k.id == pid))
        = true) ∧
  (∀ r ∈ st.favorites,
      userAlive st.users r.1 = true ∧ postAlive st.posts r.2 = true) ∧
  (∀ r ∈ st.subscriptions,
      userAlive st.users r.1 = true ∧ userAlive st.users r.2 = true) ∧
  (∀ r ∈ st.post_categories, postAlive st.posts r.1 = true)

instance (st : DBState) : Decidable (noOrphans st) := by
  unfold noOrphans
  exact inferInstance

/-! ### the in-memory prototype (src/app/storage.py) -/

/-- app.models.PostRead, the record held by the prototype Store. -/
structure StorePost where
  id : Nat
  authorId : Nat
  title : String
  content : String
  createdAt : Timestamp := 0
  updatedAt : Timestamp := 0
  deriving DecidableEq, Repr

/-- app.models.PostUpdate: every field optional; the prototype treats
a missing field and an explicit null identically ("data.title if
data.title is not None else post.title"). -/
structure StorePostUpdate where
  authorId : Option Nat := none
  title : Option String := none
  content : Option String := none
  deriving DecidableEq, Repr

/-- Store.update_post: resolve the new author, insist it exists, and
copy the record replacing exactly the provided fields plus
updatedAt. -/
def store_update_post (now : Timestamp) (userIds : List Nat)
    (post : StorePost) (d : StorePostUpdate) : Except String StorePost :=
  let newAuthor := d.authorId.getD post.authorId
  if newAuthor ∈ userIds then
    .ok { post with
          authorId := newAuthor
          title := d.title.getD post.title
          content := d.content.getD post.content
          updatedAt := now }
  else .error "authorId does not exist"

/-- Fixture user row for the concrete witnesses (only the id matters
to the statements that use it). -/
def wUser (i : Nat) : User :=
  { id := i, email := "e", login := "lll", password_hash := "h" }

/-- Fixture published post for the concrete witnesses. -/
def wPost (i : Nat) : Post :=
  { id := i, author_id := 0, title := "t", slug := "s", content := "c",
    created_at := i }

/-- Forty-five published posts, the listing of the pagination claim. -/
def wPosts45 : List Post :=
  (List.range 45).map wPost

/-- Fixture post that currently has category 1 attached. -/
def wPostCat : Post :=
  { id := 1, author_id := 1, title := "t", slug := "s", content := "c",
    categories := [1] }

/-- Fixture row for the prototype store. -/
def wsPost (i a : Nat) (t c : String) : StorePost :=
  { id := i, authorId := a, title := t, content := c }

/-- Fixture unpublished post. -/
def wPostUnpub : Post :=
  { wPostCat with is_published := false }

/-- Fixture post already published at second 7. -/
def wPostPub7 : Post :=
  { wPostCat with published_at := some 7 }

/-- Fixture creation payload (published by default). -/
def wCreate : PostCreate :=
  { author_id := 1, title := "t", content := "c" }

/-- Fixture creation payload for an unpublished post. -/
def wCreateUnpub : PostCreate :=
  { wCreate with is_published := false }

/-- Fixture creation payload whose title slugifies to hello-world. -/
def wCreateHello : PostCreate :=
  { author_id := 1, title := "Hello, World", content := "a" }

/-- A different fixture payload whose distinct title also slugifies
to hello-world. -/
def wCreateHello2 : PostCreate :=
  { author_id := 2, title := "hello world!", content := "b" }

/-- Fixture registration payload with a fresh email but the same
login as wUser 1. -/
def wDupLoginPayload : UserCreate :=
  { email := "f@x", login := "lll", password := "p" }

/-- Fixture post with an explicit author. -/
def wPostBy (i a : Nat) : Post :=
  { id := i, author_id := a, title := "t", slug := "s", content := "c" }

/-- Fixture comment row. -/
def wComment (i pid author : Nat) (par : Option Nat) : Comment :=
  { id := i, post_id := pid, user_id := author, content := "x",
    parent_id := par }

/-- Fixture relational state for the delete-cascade witness: user 1
authored post 10 and comment 20; comment 21 is a reply by user 2 to
comment 20; user 2 favorited post 10 and follows user 1; post 10 is
in category 5. -/
def wDB : DBState :=
  { users := [wUser 1, wUser 2]
    posts := [wPostBy 10 1, wPostBy 11 2]
    comments := [wComment 20 11 1 none, wComment 21 11 2 (some 20)]
    favorites := [(2, 10)]
    subscriptions := [(2, 1)]
    post_categories := [(10, 5)]
    categories := [5] }

/-! ## Helper lemmas -/

theorem pairExists_iff (rows : List PairRow) (a b : Nat) :
    pairExists rows a b = true ↔ (a, b) ∈ rows := by
  simp only [pairExists, List.any_eq_true, Bool.and_eq_true, beq_iff_eq]
  constructor
  · rintro ⟨⟨x, y⟩, hmem, h1, h2⟩
    cases h1; cases h2; exact hmem
  · intro h
    exact ⟨(a, b), h, rfl, rfl⟩

theorem pairCount_eq_zero (rows : List PairRow) (a b : Nat) :
    pairCount rows a b = 0 ↔ (a, b) ∉ rows := by
  simp only [pairCount, List.length_eq_zero, List.filter_eq_nil_iff,
    Bool.and_eq_true, beq_iff_eq, not_and]
  constructor
  · intro h hmem
    exact h (a, b) hmem rfl rfl
  · rintro h ⟨x, y⟩ hmem h1 h2
    cases h1; cases h2; exact h hmem

theorem pairCount_append (l₁ l₂ : List PairRow) (a b : Nat) :
    pairCount (l₁ ++ l₂) a b = pairCount l₁ a b + pairCount l₂ a b := by
  simp [pairCount, List.filter_append]

theorem pairCount_singleton (u p a b : Nat) :
    pairCount [(u, p)] a b = if a = u ∧ b = p then 1 else 0 := by
  by_cases h : a = u ∧ b = p
  · obtain ⟨h1, h2⟩ := h
    subst h1; subst h2
    simp [pairCount, List.filter]
  · rw [if_neg h]
    rw [pairCount_eq_zero]
    intro hmem
    simp only [List.mem_singleton, Prod.mk.injEq] at hmem
    exact h ⟨hmem.1, hmem.2⟩

theorem pairCount_filter_le (rows : List PairRow) (q : PairRow → Bool)
    (a b : Nat) : pairCount (rows.filter q) a b ≤ pairCount rows a b :=
  ((List.filter_sublist rows).filter _).length_le

theorem dictGet_skip {α : Type} (stored : α) {o : Option (Option α)}
    (h : o = none ∨ o = some none) : dictGet stored o = stored := by
  rcases h with h | h <;> rw [h] <;> rfl

theorem dictGetOpt_skip {α : Type} (stored : Option α)
    {o : Option (Option α)} (h : o = none ∨ o = some none) :
    dictGetOpt stored o = stored := by
  rcases h with h | h <;> rw [h] <;> rfl

theorem dictGetOpt_eq_none {α : Type} {stored : Option α}
    {o : Option (Option α)} (h : dictGetOpt stored o = none) :
    stored = none := by
  match o with
  | none => exact h
  | some none => exact h
  | some (some v) => exact absurd h (by simp [dictGetOpt])

/-- All field projections of update_post at once: the setattr loop
values for the payload fields, slug and the other columns untouched,
updated_at stamped, published_at stamped only on the publish
transition, categories replaced only for a truthy id list. -/
theorem update_post_proj (cats : List Nat) (now : Timestamp)
    (p : Post) (d : PostUpdate) :
    (update_post cats now p d).title = dictGet p.title d.title ∧
    (update_post cats now p d).content = dictGet p.content d.content ∧
    (update_post cats now p d).summary = dictGetOpt p.summary d.summary ∧
    (update_post cats now p d).is_published
        = dictGet p.is_published d.is_published ∧
    (update_post cats now p d).slug = p.slug ∧
    (update_post cats now p d).author_id = p.author_id ∧
    (update_post cats now p d).view_count = p.view_count ∧
    (update_post cats now p d).created_at = p.created_at ∧
    (update_post cats now p d).id = p.id ∧
    (update_post cats now p d).updated_at = now ∧
    (update_post cats now p d).published_at
        = (if d.is_published = some (some true) ∧ p.published_at = none
           then some now else p.published_at) ∧
    (update_post cats now p d).categories
        = (match truthyIds d.category_ids with
           | some ids => cats.filter (fun c => c ∈ ids)
           | none => p.categories) := by
  unfold update_post
  cases htr : truthyIds d.category_ids <;>
    by_cases hif : d.is_published = some (some true) ∧ p.published_at = none <;>
      simp [htr, hif]

theorem natDigitsAux_fuel : ∀ (f₁ n : Nat), n < f₁ → ∀ f₂, n < f₂ →
    natDigitsAux f₁ n = natDigitsAux f₂ n := by
  intro f₁
  induction f₁ with
  | zero => intro n h; omega
  | succ f ih =>
    intro n h f₂ h₂
    match f₂ with
    | 0 => omega
    | f₂ + 1 =>
      simp only [natDigitsAux]
      by_cases h10 : n < 10
      · rw [if_pos h10, if_pos h10]
      · rw [if_neg h10, if_neg h10,
          ih (n / 10) (by omega) f₂ (by omega)]

theorem natDigits_eq (n : Nat) :
    natDigits n = if n < 10 then [digitChar n]
                  else natDigits (n / 10) ++ [digitChar (n % 10)] := by
  show natDigitsAux (n + 1) n = _
  simp only [natDigitsAux]
  by_cases h10 : n < 10
  · rw [if_pos h10, if_pos h10]
  · rw [if_neg h10, if_neg h10,
      natDigitsAux_fuel n (n / 10) (by omega) (n / 10 + 1) (by omega)]
    rfl

theorem toNat_digitChar (n : Nat) (h : n < 10) :
    (digitChar n).toNat - 48 = n := by
  interval_cases n <;> decide

theorem parseDigits_append_digit (l : List Char) (c : Char) :
    parseDigits (l ++ [c]) = 10 * parseDigits l + (c.toNat - 48) := by
  simp [parseDigits, List.foldl_append]

theorem parseDigits_natDigits (n : Nat) :
    parseDigits (natDigits n) = n := by
  induction n using Nat.strong_induction_on with
  | _ n ih =>
    rw [natDigits_eq]
    by_cases h10 : n < 10
    · rw [if_pos h10]
      show 10 * 0 + ((digitChar n).toNat - 48) = n
      rw [toNat_digitChar n h10]
      omega
    · rw [if_neg h10, parseDigits_append_digit,
        ih (n / 10) (by omega), toNat_digitChar (n % 10) (by omega)]
      omega

theorem parseDigits_replicate_zero (k : Nat) (l : List Char) :
    parseDigits (List.replicate k '0' ++ l) = parseDigits l := by
  have h0 : List.foldl (fun acc c => 10 * acc + (c.toNat - 48)) 0
      (List.replicate k '0') = 0 := by
    induction k with
    | zero => rfl
    | succ k ih =>
      rw [List.replicate_succ, List.foldl_cons]
      exact ih
  rw [parseDigits, List.foldl_append, h0]
  rfl

theorem fmtTimestamp_data_inj {t₁ t₂ : Timestamp}
    (h : (fmtTimestamp t₁).data = (fmtTimestamp t₂).data) : t₁ = t₂ := by
  have e₁ : parseDigits (fmtTimestamp t₁).data = t₁ := by
    show parseDigits (List.replicate _ '0' ++ natDigits t₁) = t₁
    rw [parseDigits_replicate_zero, parseDigits_natDigits]
  have e₂ : parseDigits (fmtTimestamp t₂).data = t₂ := by
    show parseDigits (List.replicate _ '0' ++ natDigits t₂) = t₂
    rw [parseDigits_replicate_zero, parseDigits_natDigits]
  rw [← e₁, ← e₂, h]

theorem natDigits_length_le : ∀ (k n : Nat), 1 ≤ k → n < 10 ^ k →
    (natDigits n).length ≤ k := by
  intro k
  induction k with
  | zero => intro n hk; omega
  | succ k ih =>
    intro n hk hn
    rw [natDigits_eq]
    by_cases h10 : n < 10
    · rw [if_pos h10]
      simp
    · rw [if_neg h10]
      rw [List.length_append, List.length_singleton]
      have hk1 : 1 ≤ k := by
        by_contra hc
        have : k = 0 := by omega
        rw [this, pow_one] at hn
        exact h10 hn
      have hdiv : n / 10 < 10 ^ k := by
        apply Nat.div_lt_of_lt_mul
        calc n < 10 ^ (k + 1) := hn
          _ = 10 * 10 ^ k := by ring
      have := ih (n / 10) hk1 hdiv
      omega

theorem fmtTimestamp_data_length {t : Timestamp} (h : t < 10 ^ 14) :
    (fmtTimestamp t).data.length = 14 := by
  show (List.replicate (14 - (natDigits t).length) '0'
      ++ natDigits t).length = 14
  rw [List.length_append, List.length_replicate]
  have := natDigits_length_le 14 t (by omega) h
  omega

theorem string_data_append (a b : String) :
    (a ++ b).data = a.data ++ b.data := rfl

theorem makeSlug_inj_timestamp {a b : String} {t₁ t₂ : Timestamp}
    (h₁ : t₁ < 10 ^ 14) (h₂ : t₂ < 10 ^ 14)
    (h : makeSlug a t₁ = makeSlug b t₂) : t₁ = t₂ := by
  have hd : (slugify a ++ "-").data ++ (fmtTimestamp t₁).data
      = (slugify b ++ "-").data ++ (fmtTimestamp t₂).data :=
    congrArg String.data h
  have hlen : (fmtTimestamp t₁).data.length
      = (fmtTimestamp t₂).data.length := by
    rw [fmtTimestamp_data_length h₁, fmtTimestamp_data_length h₂]
  exact fmtTimestamp_data_inj (List.append_inj' hd hlen).2

/-! ## C5: slug construction and immutability -/

/-- C5 counterexample: two distinct create_post invocations that fall
into the same strftime("%Y%m%d%H%M%S") second and whose different
titles slugify identically are assigned the same slug, so slugs are
not distinct by construction of the suffix. -/
theorem create_post_slug_collision_counterexample :
    (create_post [] 20240101120000 1 wCreateHello).slug
      = (create_post [] 20240101120000 2 wCreateHello2).slug ∧
    wCreateHello.title ≠ wCreateHello2.title := by
  exact ⟨by decide, by decide⟩

/-- C5 (amended): slugs of two create_post invocations are distinct
whenever their creation timestamps differ at the second granularity
of the 14-digit stamp (regardless of the titles); within one second
the construction offers no uniqueness (see the counterexample) and
only the database unique constraint guards the insert.  A post's
slug is never changed by update_post. -/
theorem create_post_slug_unique_per_second_and_immutable
    (cats₁ cats₂ cats : List Nat) (t₁ t₂ now : Timestamp) (i₁ i₂ : Nat)
    (c₁ c₂ : PostCreate) (p : Post) (d : PostUpdate)
    (h₁ : t₁ < 10 ^ 14) (h₂ : t₂ < 10 ^ 14) (hne : t₁ ≠ t₂) :
    (create_post cats₁ t₁ i₁ c₁).slug ≠ (create_post cats₂ t₂ i₂ c₂).slug ∧
    (update_post cats now p d).slug = p.slug := by
  constructor
  · show makeSlug c₁.title t₁ ≠ makeSlug c₂.title t₂
    intro h
    exact hne (makeSlug_inj_timestamp h₁ h₂ h)
  · exact (update_post_proj cats now p d).2.2.2.2.1

/-- C5 witness: one second apart, the slugs differ even for equal
titles; and a concrete update leaves the slug alone. -/
theorem create_post_slug_unique_per_second_witness :
    (create_post [] 20240101120000 1 wCreateHello).slug
      ≠ (create_post [] 20240101120001 2 wCreateHello).slug ∧
    (update_post [] 9 wPostCat { title := some (some "x") }).slug
      = wPostCat.slug := by
  exact ⟨(create_post_slug_unique_per_second_and_immutable [] [] []
      20240101120000 20240101120001 9 1 2 wCreateHello wCreateHello
      wPostCat { title := some (some "x") } (by norm_num) (by norm_num)
      (by norm_num)).1,
    (create_post_slug_unique_per_second_and_immutable [] [] []
      20240101120000 20240101120001 9 1 2 wCreateHello wCreateHello
      wPostCat { title := some (some "x") } (by norm_num) (by norm_num)
      (by norm_num)).2⟩

theorem userAlive_iff (users : List User) (x : Nat) :
    userAlive users x = true ↔ ∃ u ∈ users, u.id = x := by
  simp [userAlive, List.any_eq_true]

theorem postAlive_iff (posts : List Post) (x : Nat) :
    postAlive posts x = true ↔ ∃ p ∈ posts, p.id = x := by
  simp [postAlive, List.any_eq_true]

theorem userAlive_filter_ne {users : List User} {uid x : Nat}
    (h : userAlive (users.filter (fun u => !(u.id == uid))) x = true) :
    x ≠ uid := by
  obtain ⟨u, hu, he⟩ := (userAlive_iff _ _).1 h
  rw [List.mem_filter] at hu
  obtain ⟨-, hne⟩ := hu
  simp only [Bool.not_eq_true', beq_eq_false_iff_ne, ne_eq] at hne
  rw [← he]
  exact hne

theorem userAlive_filter_of {users : List User} {uid x : Nat}
    (h : userAlive users x = true) (hne : x ≠ uid) :
    userAlive (users.filter (fun u => !(u.id == uid))) x = true := by
  obtain ⟨u, hu, he⟩ := (userAlive_iff _ _).1 h
  refine (userAlive_iff _ _).2 ⟨u, List.mem_filter.2 ⟨hu, ?_⟩, he⟩
  simp [he, hne]

theorem option_all_iff {o : Option Nat} {f : Nat → Bool} :
    o.all f = true ↔ ∀ pid, o = some pid → f pid = true := by
  cases o <;> simp [Option.all]

/-- Soundness of the fold computing the comments that survive the
cascade: every kept comment comes from the original list, its author
and post are alive, and its parent (if any) is also kept. -/
theorem cascadeComments_sound (users : List User) (posts : List Post)
    (S : List Comment) :
    ∀ (cs acc : List Comment), (∀ c ∈ cs, c ∈ S) →
      (∀ c ∈ acc, c ∈ S ∧ userAlive users c.user_id = true ∧
        postAlive posts c.post_id = true ∧
        ∀ pid, c.parent_id = some pid →
          acc.any (fun k => k.id == pid) = true) →
      ∀ c ∈ cs.foldl (fun acc c =>
          if commentKept users posts acc c then acc ++ [c] else acc) acc,
        c ∈ S ∧ userAlive users c.user_id = true ∧
        postAlive posts c.post_id = true ∧
        ∀ pid, c.parent_id = some pid →
          (cs.foldl (fun acc c =>
            if commentKept users posts acc c then acc ++ [c] else acc)
            acc).any (fun k => k.id == pid) = true := by
  intro cs
  induction cs with
  | nil =>
    intro acc _ hacc
    simpa using hacc
  | cons c cs ih =>
    intro acc hsub hacc
    rw [List.foldl_cons]
    by_cases hk : commentKept users posts acc c = true
    · rw [if_pos hk]
      apply ih
      · intro x hx
        exact hsub x (List.mem_cons_of_mem c hx)
      · intro x hx
        rw [List.mem_append] at hx
        rcases hx with hx | hx
        · obtain ⟨h1, h2, h3, h4⟩ := hacc x hx
          refine ⟨h1, h2, h3, ?_⟩
          intro pid hpid
          rw [List.any_append]
          rw [h4 pid hpid]
          rfl
        · rw [List.mem_singleton] at hx
          subst hx
          simp only [commentKept, Bool.and_eq_true] at hk
          obtain ⟨⟨hu, hp⟩, hpar⟩ := hk
          refine ⟨hsub x (List.mem_cons_self x cs), hu, hp, ?_⟩
          intro pid hpid
          rw [List.any_append]
          rw [hpid] at hpar
          have hpar2 : (acc.any fun k => k.id == pid) = true := hpar
          rw [hpar2]
          simp
    · rw [if_neg hk]
      apply ih
      · intro x hx
        exact hsub x (List.mem_cons_of_mem c hx)
      · exact hacc

/-- Every surviving comment of the cascade comes from the original
table, has a live author and post, and a surviving parent. -/
theorem cascadeComments_mem (users : List User) (posts : List Post)
    (cs : List Comment) :
    ∀ c ∈ cascadeComments users posts cs,
      c ∈ cs ∧ userAlive users c.user_id = true ∧
      postAlive posts c.post_id = true ∧
      ∀ pid, c.parent_id = some pid →
        (cascadeComments users posts cs).any (fun k => k.id == pid)
          = true :=
  cascadeComments_sound users posts cs cs [] (fun _ h => h) (by simp)

/-! ## C2: deleting a user cascades with no orphans -/

/-- C2: deleting an existing user removes every post and comment the
user authored and every favorites / subscriptions row referencing
the user; referential integrity is preserved (no orphan rows,
including comments whose post or transitive parent died with the
user); and a subsequent id lookup of any post or comment the user
authored returns none. -/
theorem delete_user_cascades (st : DBState) (uid : Nat)
    (hexists : userAlive st.users uid = true)
    (hwf : noOrphans st)
    (hpids : (st.posts.map Post.id).Nodup)
    (hcids : (st.comments.map Comment.id).Nodup) :
    ((delete_user st uid).2 = true) ∧
    (∀ u ∈ (delete_user st uid).1.users, u.id ≠ uid) ∧
    (∀ p ∈ (delete_user st uid).1.posts, p.author_id ≠ uid) ∧
    (∀ c ∈ (delete_user st uid).1.comments, c.user_id ≠ uid) ∧
    (∀ r ∈ (delete_user st uid).1.favorites, r.1 ≠ uid) ∧
    (∀ r ∈ (delete_user st uid).1.subscriptions,
        r.1 ≠ uid ∧ r.2 ≠ uid) ∧
    noOrphans (delete_user st uid).1 ∧
    (∀ p ∈ st.posts, p.author_id = uid →
        get_post (delete_user st uid).1 p.id = none) ∧
    (∀ c ∈ st.comments, c.user_id = uid →
        get_comment (delete_user st uid).1 c.id = none) := by
  obtain ⟨hwfp, hwfc, hwff, hwfs, hwfpc⟩ := hwf
  have hdel : delete_user st uid =
      ({ users := st.users.filter (fun u => !(u.id == uid))
         posts := st.posts.filter (fun p => !(p.author_id == uid))
         comments := cascadeComments
           (st.users.filter (fun u => !(u.id == uid)))
           (st.posts.filter (fun p => !(p.author_id == uid)))
           st.comments
         favorites := st.favorites.filter (fun r =>
           userAlive (st.users.filter (fun u => !(u.id == uid))) r.1 &&
           postAlive (st.posts.filter (fun p => !(p.author_id == uid)))
             r.2)
         subscriptions := st.subscriptions.filter (fun r =>
           userAlive (st.users.filter (fun u => !(u.id == uid))) r.1 &&
           userAlive (st.users.filter (fun u => !(u.id == uid))) r.2)
         post_categories := st.post_categories.filter (fun r =>
           postAlive (st.posts.filter (fun p => !(p.author_id == uid)))
             r.1)
         categories := st.categories }, true) := by
    unfold delete_user
    rw [if_pos hexists]
  have hcasc := cascadeComments_mem
    (st.users.filter (fun u => !(u.id == uid)))
    (st.posts.filter (fun p => !(p.author_id == uid)))
    st.comments
  have hpostne : ∀ p ∈ st.posts.filter (fun p => !(p.author_id == uid)),
      p.author_id ≠ uid := by
    intro p hp
    rw [List.mem_filter] at hp
    simpa using hp.2
  have h2 : ∀ u ∈ st.users.filter (fun u => !(u.id == uid)),
      u.id ≠ uid := by
    intro u hu
    rw [List.mem_filter] at hu
    simpa using hu.2
  have h4 : ∀ c ∈ cascadeComments
      (st.users.filter (fun u => !(u.id == uid)))
      (st.posts.filter (fun p => !(p.author_id == uid)))
      st.comments, c.user_id ≠ uid := by
    intro c hc
    exact userAlive_filter_ne (hcasc c hc).2.1
  have h5 : ∀ r ∈ st.favorites.filter (fun r =>
      userAlive (st.users.filter (fun u => !(u.id == uid))) r.1 &&
      postAlive (st.posts.filter (fun p => !(p.author_id == uid))) r.2),
      r.1 ≠ uid := by
    intro r hr
    rw [List.mem_filter, Bool.and_eq_true] at hr
    exact userAlive_filter_ne hr.2.1
  have h6 : ∀ r ∈ st.subscriptions.filter (fun r =>
      userAlive (st.users.filter (fun u => !(u.id == uid))) r.1 &&
      userAlive (st.users.filter (fun u => !(u.id == uid))) r.2),
      r.1 ≠ uid ∧ r.2 ≠ uid := by
    intro r hr
    rw [List.mem_filter, Bool.and_eq_true] at hr
    exact ⟨userAlive_filter_ne hr.2.1, userAlive_filter_ne hr.2.2⟩
  have hop : ∀ p ∈ st.posts.filter (fun p => !(p.author_id == uid)),
      userAlive (st.users.filter (fun u => !(u.id == uid)))
        p.author_id = true := by
    intro p hp
    have hmem : p ∈ st.posts := (List.mem_filter.1 hp).1
    exact userAlive_filter_of (hwfp p hmem) (hpostne p hp)
  have hoc : ∀ c ∈ cascadeComments
      (st.users.filter (fun u => !(u.id == uid)))
      (st.posts.filter (fun p => !(p.author_id == uid)))
      st.comments,
      userAlive (st.users.filter (fun u => !(u.id == uid)))
        c.user_id = true ∧
      postAlive (st.posts.filter (fun p => !(p.author_id == uid)))
        c.post_id = true ∧
      c.parent_id.all (fun pid => (cascadeComments
        (st.users.filter (fun u => !(u.id == uid)))
        (st.posts.filter (fun p => !(p.author_id == uid)))
        st.comments).any (fun k => k.id == pid)) = true := by
    intro c hc
    obtain ⟨-, hu, hp, hpar⟩ := hcasc c hc
    exact ⟨hu, hp, option_all_iff.2 hpar⟩
  have hof : ∀ r ∈ st.favorites.filter (fun r =>
      userAlive (st.users.filter (fun u => !(u.id == uid))) r.1 &&
      postAlive (st.posts.filter (fun p => !(p.author_id == uid))) r.2),
      userAlive (st.users.filter (fun u => !(u.id == uid))) r.1 = true ∧
      postAlive (st.posts.filter (fun p => !(p.author_id == uid))) r.2
        = true := by
    intro r hr
    rw [List.mem_filter, Bool.and_eq_true] at hr
    exact hr.2
  have hos : ∀ r ∈ st.subscriptions.filter (fun r =>
      userAlive (st.users.filter (fun u => !(u.id == uid))) r.1 &&
      userAlive (st.users.filter (fun u => !(u.id == uid))) r.2),
      userAlive (st.users.filter (fun u => !(u.id == uid))) r.1 = true ∧
      userAlive (st.users.filter (fun u => !(u.id == uid))) r.2
        = true := by
    intro r hr
    rw [List.mem_filter, Bool.and_eq_true] at hr
    exact hr.2
  have hopc : ∀ r ∈ st.post_categories.filter (fun r =>
      postAlive (st.posts.filter (fun p => !(p.author_id == uid))) r.1),
      postAlive (st.posts.filter (fun p => !(p.author_id == uid))) r.1
        = true := by
    intro r hr
    exact (List.mem_filter.1 hr).2
  have h8 : ∀ p ∈ st.posts, p.author_id = uid →
      (st.posts.filter (fun p => !(p.author_id == uid))).find?
        (fun q => q.id == p.id) = none := by
    intro p hp hauth
    rw [List.find?_eq_none]
    intro q hq hbeq
    rw [beq_iff_eq] at hbeq
    have hqp : q = p := List.inj_on_of_nodup_map hpids
      (List.mem_filter.1 hq).1 hp hbeq
    have := hpostne q hq
    rw [hqp, hauth] at this
    exact this rfl
  have h9 : ∀ c ∈ st.comments, c.user_id = uid →
      (cascadeComments
        (st.users.filter (fun u => !(u.id == uid)))
        (st.posts.filter (fun p => !(p.author_id == uid)))
        st.comments).find? (fun k => k.id == c.id) = none := by
    intro c hc hauth
    rw [List.find?_eq_none]
    intro k hk hbeq
    rw [beq_iff_eq] at hbeq
    have hkc : k = c := List.inj_on_of_nodup_map hcids
      (hcasc k hk).1 hc hbeq
    have := h4 k hk
    rw [hkc, hauth] at this
    exact this rfl
  rw [hdel]
  exact ⟨rfl, h2, hpostne, h4, h5, h6, ⟨hop, hoc, hof, hos, hopc⟩,
    h8, h9⟩

/-- C2 witness: deleting user 1 from the concrete fixture state
removes the authored post and comment, the reply cascade, the
favorite and follow rows, and the lookups return none. -/
theorem delete_user_cascades_witness :
    noOrphans wDB ∧
    (delete_user wDB 1).2 = true ∧
    (∀ p ∈ (delete_user wDB 1).1.posts, p.author_id ≠ 1) ∧
    noOrphans (delete_user wDB 1).1 ∧
    get_post (delete_user wDB 1).1 10 = none ∧
    get_comment (delete_user wDB 1).1 20 = none := by
  have h := delete_user_cascades wDB 1 (by decide) (by decide)
    (by decide) (by decide)
  refine ⟨by decide, h.1, h.2.2.1, h.2.2.2.2.2.2.1, ?_, ?_⟩
  · exact h.2.2.2.2.2.2.2.1 (wPostBy 10 1) (by decide) rfl
  · exact h.2.2.2.2.2.2.2.2 (wComment 20 11 1 none) (by decide) rfl

/-- C9: with page_size 20 over a 45-item listing, skip is computed as
(page - 1) * page_size, pages 1, 2, 3 return 20, 20 and 5 items, and
the three pages partition the ordered listing: concatenated in order
they give back the whole listing, and when the listing has no
duplicate rows no row appears on two pages. -/
theorem pagination_pages_partition (posts : List Post)
    (h : (sortByCreatedDesc (posts.filter (fun p => p.is_published))).length
          = 45) :
    (get_pagination_params 1 20 = (0, 20) ∧
     get_pagination_params 2 20 = (20, 20) ∧
     get_pagination_params 3 20 = (40, 20)) ∧
    (get_posts posts 0 20).length = 20 ∧
    (get_posts posts 20 20).length = 20 ∧
    (get_posts posts 40 20).length = 5 ∧
    (get_posts posts 0 20 ++ get_posts posts 20 20 ++ get_posts posts 40 20
      = sortByCreatedDesc (posts.filter (fun p => p.is_published))) ∧
    ((sortByCreatedDesc (posts.filter (fun p => p.is_published))).Nodup →
      (∀ x ∈ get_posts posts 0 20,
          x ∉ get_posts posts 20 20 ∧ x ∉ get_posts posts 40 20) ∧
      (∀ x ∈ get_posts posts 20 20, x ∉ get_posts posts 40 20)) := by
  have hparams : get_pagination_params 1 20 = (0, 20) ∧
      get_pagination_params 2 20 = (20, 20) ∧
      get_pagination_params 3 20 = (40, 20) := by
    refine ⟨rfl, rfl, rfl⟩
  set L := sortByCreatedDesc (posts.filter (fun p => p.is_published))
    with hL
  have hg : ∀ s n, get_posts posts s n = (L.drop s).take n := by
    intro s n
    rfl
  have hlen1 : (get_posts posts 0 20).length = 20 := by
    rw [hg, List.length_take, List.length_drop, h]
    rfl
  have hlen2 : (get_posts posts 20 20).length = 20 := by
    rw [hg, List.length_take, List.length_drop, h]
    rfl
  have hlen3 : (get_posts posts 40 20).length = 5 := by
    rw [hg, List.length_take, List.length_drop, h]
    rfl
  have hp3 : get_posts posts 40 20 = L.drop 40 := by
    rw [hg]
    exact List.take_of_length_le (by rw [List.length_drop, h]; omega)
  have hpart : get_posts posts 0 20 ++ get_posts posts 20 20 ++
      get_posts posts 40 20 = L := by
    rw [hg 0 20, hg 20 20, hp3, List.drop_zero, List.append_assoc]
    have h40 : L.drop 40 = (L.drop 20).drop 20 := by
      rw [List.drop_drop]
    rw [h40, List.take_append_drop, List.take_append_drop]
  refine ⟨hparams, hlen1, hlen2, hlen3, hpart, ?_⟩
  intro hnodup
  rw [← hpart] at hnodup
  rw [List.nodup_append] at hnodup
  obtain ⟨h12, _, hdisj3⟩ := hnodup
  rw [List.nodup_append] at h12
  obtain ⟨_, _, hdisj12⟩ := h12
  refine ⟨?_, ?_⟩
  · intro x hx1
    refine ⟨fun hx2 => hdisj12 hx1 hx2, fun hx3 => ?_⟩
    exact hdisj3 (List.mem_append.2 (Or.inl hx1)) hx3
  · intro x hx2 hx3
    exact hdisj3 (List.mem_append.2 (Or.inr hx2)) hx3

/-- C9 witness: the pagination theorem applied to forty-five concrete
published posts. -/
theorem pagination_pages_partition_witness :
    (sortByCreatedDesc (wPosts45.filter (fun p => p.is_published))).length
        = 45 ∧
    (get_posts wPosts45 0 20).length = 20 ∧
    (get_posts wPosts45 20 20).length = 20 ∧
    (get_posts wPosts45 40 20).length = 5 := by
  have h45 : (sortByCreatedDesc
      (wPosts45.filter (fun p => p.is_published))).length = 45 := by decide
  have h := pagination_pages_partition wPosts45 h45
  exact ⟨h45, h.2.1, h.2.2.1, h.2.2.2.1⟩

/-! ## C6: category replacement on update -/

/-- C6 counterexample: supplying category_ids = [] does not clear the
category set; Python truthiness skips the empty list, so the stored
set is left unchanged, contradicting "supplying an empty list yields
an empty category set". -/
theorem update_post_empty_category_ids_counterexample :
    (update_post [1, 2] 9 wPostCat
        { category_ids := some (some []) }).categories = [1] ∧
    ([1] : List Nat) ≠ [] := by
  exact ⟨rfl, by decide⟩

/-- C6 (amended): when category_ids is supplied with a non-empty
list, update_post replaces the post's entire category set with
exactly the stored categories among the supplied ids (not
additively); supplying an empty list, a null, or omitting the key
leaves the category set unchanged. -/
theorem update_post_category_replacement (cats : List Nat)
    (now : Timestamp) (p : Post) (d : PostUpdate) :
    (∀ l, d.category_ids = some (some l) → l ≠ [] →
        (update_post cats now p d).categories
          = cats.filter (fun c => c ∈ l)) ∧
    (d.category_ids = none →
        (update_post cats now p d).categories = p.categories) ∧
    (d.category_ids = some none →
        (update_post cats now p d).categories = p.categories) ∧
    (d.category_ids = some (some []) →
        (update_post cats now p d).categories = p.categories) := by
  have hcat := (update_post_proj cats now p d).2.2.2.2.2.2.2.2.2.2.2
  refine ⟨?_, ?_, ?_, ?_⟩
  · intro l hl hne
    rw [hcat, hl]
    simp [truthyIds, hne]
  · intro hl
    rw [hcat, hl]
    rfl
  · intro hl
    rw [hcat, hl]
    rfl
  · intro hl
    rw [hcat, hl]
    rfl

/-- C6 witness: the amended category statement at concrete inputs. -/
theorem update_post_category_replacement_witness :
    (update_post [1, 2, 3] 9 wPostCat
        { category_ids := some (some [2, 3, 9]) }).categories = [2, 3] ∧
    (update_post [1, 2, 3] 9 wPostCat
        { category_ids := some (some []) }).categories = wPostCat.categories ∧
    (update_post [1, 2, 3] 9 wPostCat
        { title := some (some "x") }).categories = wPostCat.categories := by
  refine ⟨?_, ?_, ?_⟩
  · rw [(update_post_category_replacement [1, 2, 3] 9 wPostCat
      { category_ids := some (some [2, 3, 9]) }).1 [2, 3, 9] rfl
      (by decide)]
    decide
  · exact (update_post_category_replacement [1, 2, 3] 9 wPostCat
      { category_ids := some (some []) }).2.2.2 rfl
  · exact (update_post_category_replacement [1, 2, 3] 9 wPostCat
      { title := some (some "x") }).2.1 rfl

/-! ## C7: absent fields are a frame -/

/-- C7: fields absent from a partial-update payload keep their stored
value, for posts (crud.update_post), users (crud.update_user) and the
prototype store (Store.update_post); in particular a title-only post
update changes only title and updated_at. -/
theorem partial_update_absent_fields_frame
    (cats : List Nat) (now : Timestamp) (p : Post) (d : PostUpdate)
    (u : User) (du : UserUpdate) (userIds : List Nat) (sp : StorePost)
    (sd : StorePostUpdate) :
    (d.title = none → (update_post cats now p d).title = p.title) ∧
    (d.content = none → (update_post cats now p d).content = p.content) ∧
    (d.summary = none → (update_post cats now p d).summary = p.summary) ∧
    (d.is_published = none →
        (update_post cats now p d).is_published = p.is_published ∧
        (update_post cats now p d).published_at = p.published_at) ∧
    (d.category_ids = none →
        (update_post cats now p d).categories = p.categories) ∧
    (d.content = none → d.summary = none → d.is_published = none →
     d.category_ids = none →
        update_post cats now p d =
          { p with title := dictGet p.title d.title, updated_at := now }) ∧
    (du.email = none → (update_user now u du).email = u.email) ∧
    (du.login = none → (update_user now u du).login = u.login) ∧
    (du.full_name = none → (update_user now u du).full_name = u.full_name) ∧
    (du.bio = none → (update_user now u du).bio = u.bio) ∧
    (du.avatar_url = none →
        (update_user now u du).avatar_url = u.avatar_url) ∧
    (du.password = none →
        (update_user now u du).password_hash = u.password_hash) ∧
    (sp.authorId ∈ userIds → sd.authorId = none → sd.content = none →
        store_update_post now userIds sp sd =
          .ok { sp with title := sd.title.getD sp.title,
                        updatedAt := now }) := by
  obtain ⟨ht, hc, hs, hip, -, -, -, -, -, -, hpub, hcat⟩ :=
    update_post_proj cats now p d
  refine ⟨?_, ?_, ?_, ?_, ?_, ?_, ?_, ?_, ?_, ?_, ?_, ?_, ?_⟩
  · intro h; rw [ht, dictGet_skip _ (Or.inl h)]
  · intro h; rw [hc, dictGet_skip _ (Or.inl h)]
  · intro h; rw [hs, dictGetOpt_skip _ (Or.inl h)]
  · intro h
    refine ⟨by rw [hip, dictGet_skip _ (Or.inl h)], ?_⟩
    rw [hpub, if_neg]
    rintro ⟨habs, -⟩
    rw [h] at habs
    cases habs
  · intro h
    rw [hcat, h]
    rfl
  · intro h1 h2 h3 h4
    obtain ⟨dt, dc, ds, dip, dci⟩ := d
    simp only at h1 h2 h3 h4
    subst h1; subst h2; subst h3; subst h4
    rfl
  · intro h; simp only [update_user]; rw [dictGet_skip _ (Or.inl h)]
  · intro h; simp only [update_user]; rw [dictGet_skip _ (Or.inl h)]
  · intro h; simp only [update_user]; rw [dictGetOpt_skip _ (Or.inl h)]
  · intro h; simp only [update_user]; rw [dictGetOpt_skip _ (Or.inl h)]
  · intro h; simp only [update_user]; rw [dictGetOpt_skip _ (Or.inl h)]
  · intro h; simp only [update_user]; rw [h]
  · intro hmem h1 h2
    obtain ⟨sa, st, sc⟩ := sd
    simp only at h1 h2
    subst h1; subst h2
    simp only [store_update_post, Option.getD_none]
    rw [if_pos hmem]

/-- C7 witness: a title-only update of a concrete post keeps content
and the other columns, and the user/store conjuncts at concrete
inputs. -/
theorem partial_update_absent_fields_frame_witness :
    (update_post [] 9 wPostCat { title := some (some "new") } =
      { wPostCat with title := "new", updated_at := 9 }) ∧
    ((update_user 9 (wUser 1) { bio := some (some "b") }).email
      = (wUser 1).email) ∧
    (store_update_post 9 [1] (wsPost 1 1 "t" "c") { title := some "new" } =
      .ok { wsPost 1 1 "t" "c" with title := "new", updatedAt := 9 }) := by
  refine ⟨?_, ?_, ?_⟩
  · have h := (partial_update_absent_fields_frame [] 9 wPostCat
      { title := some (some "new") } (wUser 1) {} [] (wsPost 0 0 "" "")
      {}).2.2.2.2.2.1 rfl rfl rfl rfl
    exact h.trans rfl
  · exact (partial_update_absent_fields_frame [] 9 wPostCat {}
      (wUser 1) { bio := some (some "b") } [] (wsPost 0 0 "" "")
      {}).2.2.2.2.2.2.1 rfl
  · have h := (partial_update_absent_fields_frame [] 9 wPostCat {}
      (wUser 1) {} [1] (wsPost 1 1 "t" "c")
      { title := some "new" }).2.2.2.2.2.2.2.2.2.2.2.2
      (by decide) rfl rfl
    exact h.trans rfl

/-! ## C10: null-valued fields are ignored -/

/-- C10: a field present in an update payload with value null is
skipped by the "if value is not None" loop: update_user and
update_post keep the stored value, and no stored column can be
cleared to null through them. -/
theorem null_valued_update_fields_ignored
    (cats : List Nat) (now : Timestamp) (p : Post) (d : PostUpdate)
    (u : User) (du : UserUpdate) :
    (d.title = some none → (update_post cats now p d).title = p.title) ∧
    (d.content = some none →
        (update_post cats now p d).content = p.content) ∧
    (d.summary = some none →
        (update_post cats now p d).summary = p.summary) ∧
    (d.is_published = some none →
        (update_post cats now p d).is_published = p.is_published ∧
        (update_post cats now p d).published_at = p.published_at) ∧
    (d.category_ids = some none →
        (update_post cats now p d).categories = p.categories) ∧
    ((update_post cats now p d).summary = none → p.summary = none) ∧
    (du.email = some none → (update_user now u du).email = u.email) ∧
    (du.login = some none → (update_user now u du).login = u.login) ∧
    (du.full_name = some none →
        (update_user now u du).full_name = u.full_name) ∧
    (du.bio = some none → (update_user now u du).bio = u.bio) ∧
    (du.avatar_url = some none →
        (update_user now u du).avatar_url = u.avatar_url) ∧
    (du.password = some none →
        (update_user now u du).password_hash = u.password_hash) ∧
    ((update_user now u du).full_name = none → u.full_name = none) ∧
    ((update_user now u du).bio = none → u.bio = none) ∧
    ((update_user now u du).avatar_url = none → u.avatar_url = none) := by
  obtain ⟨ht, hc, hs, hip, -, -, -, -, -, -, hpub, hcat⟩ :=
    update_post_proj cats now p d
  refine ⟨?_, ?_, ?_, ?_, ?_, ?_, ?_, ?_, ?_, ?_, ?_, ?_, ?_, ?_, ?_⟩
  · intro h; rw [ht, dictGet_skip _ (Or.inr h)]
  · intro h; rw [hc, dictGet_skip _ (Or.inr h)]
  · intro h; rw [hs, dictGetOpt_skip _ (Or.inr h)]
  · intro h
    refine ⟨by rw [hip, dictGet_skip _ (Or.inr h)], ?_⟩
    rw [hpub, if_neg]
    rintro ⟨habs, -⟩
    rw [h] at habs
    cases habs
  · intro h
    rw [hcat, h]
    rfl
  · intro h
    rw [hs] at h
    exact dictGetOpt_eq_none h
  · intro h; simp only [update_user]; rw [dictGet_skip _ (Or.inr h)]
  · intro h; simp only [update_user]; rw [dictGet_skip _ (Or.inr h)]
  · intro h; simp only [update_user]; rw [dictGetOpt_skip _ (Or.inr h)]
  · intro h; simp only [update_user]; rw [dictGetOpt_skip _ (Or.inr h)]
  · intro h; simp only [update_user]; rw [dictGetOpt_skip _ (Or.inr h)]
  · intro h; simp only [update_user]; rw [h]
  · intro h
    simp only [update_user] at h
    exact dictGetOpt_eq_none h
  · intro h
    simp only [update_user] at h
    exact dictGetOpt_eq_none h
  · intro h
    simp only [update_user] at h
    exact dictGetOpt_eq_none h

/-- C10 witness: explicit nulls at concrete inputs are ignored. -/
theorem null_valued_update_fields_ignored_witness :
    ((update_post [] 9 wPostCat { content := some none }).content
      = wPostCat.content) ∧
    ((update_user 9 (wUser 1) { email := some none }).email
      = (wUser 1).email) := by
  refine ⟨?_, ?_⟩
  · exact (null_valued_update_fields_ignored [] 9 wPostCat
      { content := some none } (wUser 1) {}).2.1 rfl
  · exact (null_valued_update_fields_ignored [] 9 wPostCat {}
      (wUser 1) { email := some none }).2.2.2.2.2.2.1 rfl

/-! ## C8: the duplicate-field classification is broken in the code -/

/-- C8: the program cannot identify which field collided.  str(e) of
every users-insert IntegrityError contains "email" through the echoed
INSERT column list, so the `if "email" in str(e)` branch fires for
both constraints and the `elif "login"` branch is unreachable.  At
the failing input - a fresh email with a duplicate login - the
storage reports the login constraint, yet create_user raises
"Email already registered"; the table is still left unchanged. -/
theorem create_user_login_collision_misreported :
    (∀ c, strContains (integrityMessage c) "email" = true) ∧
    ((wUser 1).login = wDupLoginPayload.login) ∧
    (¬ ∃ v ∈ [wUser 1], v.email = wDupLoginPayload.email) ∧
    (insert_user [wUser 1] (mkUserRow 9 2 wDupLoginPayload)
      = .error .login) ∧
    (create_user [wUser 1] 9 2 wDupLoginPayload
      = ([wUser 1], .error .emailRegistered)) := by
  refine ⟨fun c => ?_, by decide, by decide, rfl, rfl⟩
  cases c <;> decide

/-! ## C1: published_at is stamped at most once -/

/-- C1: create_post stamps published_at exactly when the post is
created published; update_post never changes or clears an already-set
published_at, stamps it only when the payload publishes the post
while it is still unset, and under the reachable-state invariant
(is_published implies published_at set) such a stamp is exactly the
first transition into the published state; both operations preserve
that invariant. -/
theorem published_at_stamped_once (cats : List Nat)
    (now t : Timestamp) (newId : Nat) (c : PostCreate) (p : Post)
    (d : PostUpdate) :
    ((create_post cats now newId c).published_at
        = (if c.is_published then some now else none)) ∧
    ((create_post cats now newId c).is_published = true →
        (create_post cats now newId c).published_at ≠ none) ∧
    (p.published_at = some t →
        (update_post cats now p d).published_at = some t) ∧
    (p.published_at = none →
        (update_post cats now p d).published_at
          = (if d.is_published = some (some true) then some now else none)) ∧
    ((p.is_published = true → p.published_at ≠ none) →
      p.published_at = none → d.is_published = some (some true) →
        p.is_published = false ∧
        (update_post cats now p d).is_published = true) ∧
    ((p.is_published = true → p.published_at ≠ none) →
      (update_post cats now p d).is_published = true →
        (update_post cats now p d).published_at ≠ none) := by
  obtain ⟨-, -, -, hip, -, -, -, -, -, -, hpub, -⟩ :=
    update_post_proj cats now p d
  refine ⟨rfl, ?_, ?_, ?_, ?_, ?_⟩
  · intro h
    simp only [create_post] at h ⊢
    rw [h]
    simp
  · intro h
    rw [hpub, h, if_neg]
    rintro ⟨-, habs⟩
    cases habs
  · intro h
    rw [hpub, h]
    by_cases hd : d.is_published = some (some true)
    · rw [if_pos ⟨hd, rfl⟩, if_pos hd]
    · rw [if_neg (fun hc => hd hc.1), if_neg hd]
  · intro hinv hnone hd
    have hfalse : p.is_published = false := by
      cases hip2 : p.is_published
      · rfl
      · exact absurd hnone (hinv hip2)
    refine ⟨hfalse, ?_⟩
    rw [hip, hd]
    rfl
  · intro hinv hpubl
    rw [hpub]
    by_cases hcond : d.is_published = some (some true) ∧ p.published_at = none
    · rw [if_pos hcond]
      simp
    · rw [if_neg hcond]
      rw [hip] at hpubl
      match hd : d.is_published with
      | some (some true) =>
          intro habs
          exact hcond ⟨hd, habs⟩
      | some (some false) =>
          rw [hd] at hpubl
          exact absurd hpubl (by simp [dictGet])
      | some none =>
          rw [hd] at hpubl
          simp only [dictGet] at hpubl
          exact hinv hpubl
      | none =>
          rw [hd] at hpubl
          simp only [dictGet] at hpubl
          exact hinv hpubl

/-- C1 witness: the publish-stamp theorem at concrete inputs: a
publish transition stamps now, a later update keeps the old stamp. -/
theorem published_at_stamped_once_witness :
    ((create_post [] 5 1 wCreateUnpub).published_at = none) ∧
    ((update_post [] 7 wPostUnpub
        { is_published := some (some true) }).published_at = some 7) ∧
    ((update_post [] 9 wPostPub7
        { is_published := some (some true) }).published_at = some 7) := by
  refine ⟨?_, ?_, ?_⟩
  · exact (published_at_stamped_once [] 5 0 1 wCreateUnpub wPostCat {}).1
  · have h := (published_at_stamped_once [] 7 0 1 wCreate wPostUnpub
      { is_published := some (some true) }).2.2.2.1 rfl
    exact h.trans rfl
  · exact (published_at_stamped_once [] 9 7 1 wCreate wPostPub7
      { is_published := some (some true) }).2.2.1 rfl

/-! ## C3: follow rules -/

/-- C3: follow_user rejects a self-follow and (through the route) a
duplicate follow, with the route reporting the two cases through
distinct outcomes; following the same user twice leaves exactly one
subscription row, and unfollow_user returns true exactly when a row
was actually removed. -/
theorem follow_reject_and_unfollow_report
    (users : List User) (subs : List PairRow) (cur tgt a b : Nat) :
    (userAlive users tgt = true → tgt = cur →
        follow_route users subs cur tgt = (subs, .cannotFollowSelf)) ∧
    (userAlive users tgt = true → tgt ≠ cur → (cur, tgt) ∈ subs →
        follow_route users subs cur tgt = (subs, .alreadyFollowing)) ∧
    (FollowOutcome.cannotFollowSelf ≠ FollowOutcome.alreadyFollowing) ∧
    (follow_user subs a a = (subs, false)) ∧
    (a ≠ b → pairCount subs a b = 0 →
        pairCount (follow_user (follow_user subs a b).1 a b).1 a b = 1) ∧
    ((unfollow_user subs a b).2 = true ↔
        (unfollow_user subs a b).1.length < subs.length) := by
  refine ⟨?_, ?_, by simp, ?_, ?_, ?_⟩
  · intro halive hself
    subst hself
    simp only [userAlive] at halive
    simp only [follow_route, halive]
    simp
  · intro halive hne hmem
    have hex : pairExists subs cur tgt = true := (pairExists_iff _ _ _).2 hmem
    simp only [userAlive] at halive
    simp only [follow_route, halive]
    simp [hne, follow_user, hex]
  · simp [follow_user]
  · intro hne hzero
    have hnotmem : (a, b) ∉ subs := (pairCount_eq_zero _ _ _).1 hzero
    have hex : pairExists subs a b = false := by
      rw [Bool.eq_false_iff]
      intro h
      exact hnotmem ((pairExists_iff _ _ _).1 h)
    have h1 : follow_user subs a b = (subs ++ [(a, b)], true) := by
      simp [follow_user, hex, hne]
    rw [h1]
    have hex2 : pairExists (subs ++ [(a, b)]) a b = true :=
      (pairExists_iff _ _ _).2 (by simp)
    simp only [follow_user, hex2, true_or, if_pos]
    rw [pairCount_append, hzero, pairCount_singleton]
    simp
  · simp only [unfollow_user]
    rw [pairExists_iff]
    rw [List.length_filter_lt_length_iff_exists]
    constructor
    · intro hmem
      exact ⟨(a, b), hmem, by simp⟩
    · rintro ⟨⟨x, y⟩, hmem, h⟩
      simp at h
      obtain ⟨h1, h2⟩ := h
      subst h1; subst h2; exact hmem

/-- C3 witness: concrete instances of every hypothesis-guarded
conjunct of the follow theorem. -/
theorem follow_reject_and_unfollow_report_witness :
    (follow_route [wUser 1] [] 1 1 = ([], .cannotFollowSelf)) ∧
    (follow_route [wUser 2] [(1, 2)] 1 2 = ([(1, 2)], .alreadyFollowing)) ∧
    (pairCount (follow_user (follow_user [] 1 2).1 1 2).1 1 2 = 1) := by
  refine ⟨?_, ?_, ?_⟩
  · exact (follow_reject_and_unfollow_report [wUser 1] [] 1 1 0 0).1
      (by decide) rfl
  · exact (follow_reject_and_unfollow_report [wUser 2] [(1, 2)] 1 2 0 0).2.1
      (by decide) (by decide) (by decide)
  · exact (follow_reject_and_unfollow_report [] [] 0 0 1 2).2.2.2.2.1
      (by decide) (by decide)

/-! ## C4: favorite idempotent reporting -/

/-- C4: add_favorite on an already-favorited pair reports False and
inserts nothing; remove_favorite on a never-favorited pair reports
False and removes nothing; and neither operation can introduce a
duplicate (user, post) pair into the favorites table. -/
theorem favorite_add_remove_idempotent_report
    (favs : List PairRow) (u p : Nat)
    (hinv : ∀ a b, pairCount favs a b ≤ 1) :
    ((u, p) ∈ favs → add_favorite favs u p = (favs, false)) ∧
    ((u, p) ∉ favs → remove_favorite favs u p = (favs, false)) ∧
    (∀ a b, pairCount (add_favorite favs u p).1 a b ≤ 1) ∧
    (∀ a b, pairCount (remove_favorite favs u p).1 a b ≤ 1) := by
  refine ⟨?_, ?_, ?_, ?_⟩
  · intro hmem
    have hex : pairExists favs u p = true := (pairExists_iff _ _ _).2 hmem
    simp [add_favorite, hex]
  · intro hmem
    have hex : pairExists favs u p = false := by
      rw [Bool.eq_false_iff]
      intro h
      exact hmem ((pairExists_iff _ _ _).1 h)
    simp only [remove_favorite, hex]
    rw [Prod.mk.injEq]
    refine ⟨?_, rfl⟩
    rw [List.filter_eq_self]
    rintro ⟨x, y⟩ hxy
    by_cases hx : x = u
    · by_cases hy : y = p
      · exfalso
        apply hmem
        rw [← hx, ← hy]
        exact hxy
      · simp [hy]
    · simp [hx]
  · intro a b
    by_cases hex : pairExists favs u p = true
    · simp [add_favorite, hex]
      exact hinv a b
    · rw [Bool.not_eq_true] at hex
      simp only [add_favorite, hex, Bool.false_eq_true, if_false]
      rw [pairCount_append, pairCount_singleton]
      by_cases hab : a = u ∧ b = p
      · obtain ⟨h1, h2⟩ := hab
        subst h1; subst h2
        have : (a, b) ∉ favs := by
          intro hmem
          rw [← pairExists_iff] at hmem
          rw [hex] at hmem
          cases hmem
        rw [(pairCount_eq_zero _ _ _).2 this]
        simp
      · rw [if_neg hab]
        simpa using hinv a b
  · intro a b
    calc pairCount (remove_favorite favs u p).1 a b
        ≤ pairCount favs a b := pairCount_filter_le _ _ _ _
      _ ≤ 1 := hinv a b

/-- C4 witness: the favorite theorem instantiated on a one-row table. -/
theorem favorite_add_remove_idempotent_report_witness :
    (add_favorite [(1, 7)] 1 7 = ([(1, 7)], false)) ∧
    (remove_favorite [(1, 7)] 2 7 = ([(1, 7)], false)) ∧
    (∀ a b, pairCount (add_favorite [(1, 7)] 1 7).1 a b ≤ 1) := by
  have hinv : ∀ a b, pairCount [(1, 7)] a b ≤ 1 := by
    intro a b
    rw [pairCount_singleton]
    split <;> omega
  exact ⟨(favorite_add_remove_idempotent_report [(1, 7)] 1 7 hinv).1
      (by decide),
    (favorite_add_remove_idempotent_report [(1, 7)] 2 7 hinv).2.1
      (by decide),
    (favorite_add_remove_idempotent_report [(1, 7)] 1 7 hinv).2.2.1⟩

end Blog
